import Mathlib

/-!
# FOUND: the real-time relay of `src/index.js`

A shallow embedding of the socket section of `src/index.js` (lines 133-205):
the `connectedUsers` map and the handlers registered on every socket
(`user_online`, `join_chat`, `send_message`, `message_read`, `typing_start`,
`typing_stop`, `disconnect`).

* JavaScript values that reach the handlers are values of `JSVal`; an object
  carries its identity, and keys of the map and names of rooms are compared
  as JavaScript compares them (`sameValueZero`).
* The process state is the `connectedUsers` map together with the open
  sockets; each socket carries its `userId` property and the rooms it joined.
* A handler is a function from the state (and the clock reading, where the
  source calls `new Date()`) to an `Outcome`: the new state, the events it
  emitted in order, and whether it ended by throwing.

The socket.io calls of the source are modelled by their documented meaning:
`socket.join(room)` adds the socket to `room`, `socket.to(room).emit` reaches
every socket in `room` but the emitting one, `socket.broadcast.emit` reaches
every connected socket but the emitting one, and a socket joins the room named
by its own id when it connects and leaves all rooms when it disconnects.
-/

namespace Found

/-! ## JavaScript values -/

/-- A JavaScript string: the sequence of its UTF-16 code units. -/
abbrev JSString := List (Fin 65536)

/-- The UTF-16 code units of a character: one unit below U+10000, a pair of
surrogates from there on. -/
def utf16Char (c : Char) : JSString :=
  if c.toNat < 65536 then [Fin.ofNat c.toNat]
  else [Fin.ofNat (55296 + (c.toNat - 65536) / 1024),
        Fin.ofNat (56320 + (c.toNat - 65536) % 1024)]

/-- The JavaScript string written by a string literal. -/
def utf16 (s : String) : JSString :=
  s.toList.foldr (fun c units => utf16Char c ++ units) []

instance : Coe String JSString := ⟨utf16⟩

/-- JavaScript values carried by event payloads: the values a wire payload
decodes to (`null`, booleans, numbers, strings, plain objects) and
`undefined` (a missing argument or property).
A number is an integer here: the handlers do no arithmetic, they only pass
numbers on or use them as keys. An object has an identity `ref`, its own for
every object that is decoded, and the sequence of its property definitions, a
later definition of a name replacing an earlier one; property names are
well-formed strings. Arrays, which socket.io reads as lists of rooms, are
outside the model. -/
inductive JSVal where
  | undefined : JSVal
  | null : JSVal
  | bool (b : Bool) : JSVal
  | num (n : Int) : JSVal
  | str (s : JSString) : JSVal
  | obj (ref : Nat) (fields : List (String × JSVal)) : JSVal

namespace JSVal

mutual
/-- Equality test on values of the model, by recursion on the first value. -/
def same : JSVal → JSVal → Bool
  | undefined, undefined => true
  | null, null => true
  | bool a, bool b => a == b
  | num a, num b => a == b
  | str a, str b => a == b
  | obj r a, obj q b => r == q && sameFields a b
  | _, _ => false
/-- Equality test on property sequences. -/
def sameFields : List (String × JSVal) → List (String × JSVal) → Bool
  | [], [] => true
  | (k, x) :: xs, (l, y) :: ys => k == l && same x y && sameFields xs ys
  | _, _ => false
end

mutual
theorem eq_of_same : ∀ a b : JSVal, same a b = true → a = b
  | undefined, b => by cases b <;> simp [same]
  | null, b => by cases b <;> simp [same]
  | bool a, b => by cases b <;> simp [same]
  | num a, b => by cases b <;> simp [same]
  | str a, b => by cases b <;> simp [same]
  | obj r a, b => by
      cases b <;> simp [same]
      exact fun h1 h2 => ⟨h1, eq_of_sameFields a _ h2⟩
theorem eq_of_sameFields :
    ∀ a b : List (String × JSVal), sameFields a b = true → a = b
  | [], b => by cases b <;> simp [sameFields]
  | (k, x) :: xs, b => by
      cases b with
      | nil => simp [sameFields]
      | cons y ys =>
        obtain ⟨l, y⟩ := y
        simp [sameFields]
        exact fun h0 h1 h2 => ⟨⟨h0, eq_of_same x y h1⟩, eq_of_sameFields xs ys h2⟩
end

mutual
theorem same_self : ∀ a : JSVal, same a a = true
  | undefined => by simp [same]
  | null => by simp [same]
  | bool a => by simp [same]
  | num a => by simp [same]
  | str a => by simp [same]
  | obj r a => by simp [same]; exact sameFields_self a
theorem sameFields_self : ∀ a : List (String × JSVal), sameFields a a = true
  | [] => by simp [sameFields]
  | (k, x) :: xs => by simp [sameFields]; exact ⟨same_self x, sameFields_self xs⟩
end

/-- Equality of values of the model, identities included. It serves to
compare states and emitted events; the handlers never use it: the test on
keys and room names is `sameValueZero`. -/
instance : DecidableEq JSVal := fun a b =>
  if h : same a b = true then isTrue (eq_of_same a b h)
  else isFalse (fun e => h (e ▸ same_self a))

/-- SameValueZero, the comparison of `Map` keys and of socket.io room names
(kept in a `Map` and `Set`s): primitive values are compared by value, objects
by identity, whatever their properties. -/
def sameValueZero : JSVal → JSVal → Bool
  | undefined, undefined => true
  | null, null => true
  | bool a, bool b => a == b
  | num a, num b => a == b
  | str a, str b => a == b
  | obj r _, obj q _ => r == q
  | _, _ => false

/-- The test `v == null` of destructuring and of property access: reading a
property of `null` or `undefined` throws a TypeError. -/
def isNullish : JSVal → Bool
  | undefined => true
  | null => true
  | _ => false

/-- JavaScript truthiness, as tested by `if (socket.userId)`. -/
def truthy : JSVal → Bool
  | undefined => false
  | null => false
  | bool b => b
  | num n => n != 0
  | str s => !s.isEmpty
  | obj _ _ => true

end JSVal

/-- The last definition of name `k` in a property sequence. -/
def lookup {α : Type} : List (String × α) → String → Option α
  | [], _ => none
  | (k', v) :: rest, k =>
    match lookup rest k with
    | some w => some w
    | none => if k' = k then some v else none

namespace JSVal

/-- Property read `v.k` on a value that is not `null` or `undefined`, for the
names the handlers read (`matchId`, `message`, `senderId`, `messageId`,
`userId`, `_id`): the own property if `v` is an object that has one,
`undefined` otherwise (no prototype defines these names). -/
def getProp (v : JSVal) (k : String) : JSVal :=
  match v with
  | obj _ fields => (lookup fields k).getD undefined
  | _ => undefined

/-- The properties copied by the spread `...v` in an object literal: those of
an object; for a string, one property per code unit, named by its index and
holding the string of that unit; none for any other value (`null` and
`undefined` included: spreading them is not an error). -/
def spread : JSVal → List (String × JSVal)
  | obj _ fields => fields
  | str s => s.enum.map (fun p => (toString p.1, str [p.2]))
  | _ => []

end JSVal

open JSVal

/-- A value in an object that a handler builds and emits: a value taken from
the payload, or the `Date` made by `new Date()` (its clock reading). -/
inductive OutVal where
  | val (v : JSVal)
  | date (ms : Nat)
deriving DecidableEq

/-- The object literal passed to `emit`, as the sequence of its property
definitions. -/
abbrev Payload := List (String × OutVal)

/-- The property sequence of a spread, as part of an emitted object. -/
def spreadOut (v : JSVal) : Payload :=
  (spread v).map (fun p => (p.1, OutVal.val p.2))

/-! ## The `connectedUsers` map -/

/-- Identifier of a socket (`socket.id`). -/
abbrev SocketId := String

/-- A JavaScript `Map` from user identifiers to socket ids, as the list of
its entries in insertion order. -/
abbrev UserMap := List (JSVal × SocketId)

/-- Model of `Map.prototype.set`: replaces the value of the entry whose key
is the same as `k`, keeping the key; appends a new entry when there is none. -/
def mapSet : UserMap → JSVal → SocketId → UserMap
  | [], k, v => [(k, v)]
  | (k', v') :: rest, k, v =>
    if sameValueZero k' k then (k', v) :: rest else (k', v') :: mapSet rest k v

/-- Model of `Map.prototype.delete`: drops the entry whose key is the same
as `k`. -/
def mapDelete : UserMap → JSVal → UserMap
  | [], _ => []
  | (k', v') :: rest, k =>
    if sameValueZero k' k then mapDelete rest k else (k', v') :: mapDelete rest k

/-- Model of `Map.prototype.get`; `none` is `undefined`. -/
def mapGet : UserMap → JSVal → Option SocketId
  | [], _ => none
  | (k', v') :: rest, k => if sameValueZero k' k then some v' else mapGet rest k

/-- The representation invariant of a `Map`: no two entries have the same
key. -/
def UniqueKeys : UserMap → Prop
  | [] => True
  | (k, _) :: rest => (∀ e ∈ rest, sameValueZero k e.1 = false) ∧ UniqueKeys rest

instance decUniqueKeys : (m : UserMap) → Decidable (UniqueKeys m)
  | [] => isTrue trivial
  | (k, _) :: rest =>
    have := decUniqueKeys rest
    inferInstanceAs (Decidable ((∀ e ∈ rest, sameValueZero k e.1 = false) ∧ UniqueKeys rest))

/-- The entries of a `Map` under the key `k`. -/
def entriesOf (m : UserMap) (k : JSVal) : UserMap :=
  m.filter (fun e => sameValueZero e.1 k)

/-! ## Sockets, state, emitted events -/

/-- An open socket: its id, its `userId` property (`undefined` until
`user_online` assigns it) and the rooms it is in. -/
structure Socket where
  id : SocketId
  userId : JSVal
  rooms : List JSVal
deriving DecidableEq

/-- The state of the relay: `connectedUsers` and the open sockets in
connection order. -/
structure State where
  connectedUsers : UserMap
  sockets : List Socket
deriving DecidableEq

/-- One `emit`: the sockets it is delivered to, the event name, the payload. -/
structure Emit where
  dest : List SocketId
  event : String
  payload : Payload
deriving DecidableEq

/-- What running a handler gives: the state it leaves, the events it emitted
in order, and whether it ended by throwing a TypeError. -/
structure Outcome where
  st : State
  out : List Emit
  threw : Bool
deriving DecidableEq

/-- The state of a fresh process: `new Map()` and no socket. -/
def State.init : State := ⟨[], []⟩

/-- Whether a socket with this id is open. -/
def State.isOpen (st : State) (sid : SocketId) : Bool :=
  st.sockets.any (fun s => s.id = sid)

/-- Whether the socket is in `room`. -/
def Socket.inRoom (s : Socket) (room : JSVal) : Bool :=
  s.rooms.any (fun r => sameValueZero r room)

/-- Model of `socket.join(room)`: rooms form a set. -/
def Socket.join (s : Socket) (room : JSVal) : Socket :=
  if s.inRoom room then s else { s with rooms := s.rooms ++ [room] }

/-- Recipients of `socket.to(room).emit(...)`: the sockets in `room`, the
emitting socket `sid` left out. -/
def toRoom (st : State) (sid : SocketId) (room : JSVal) : List SocketId :=
  (st.sockets.filter (fun s => s.inRoom room && decide (s.id ≠ sid))).map Socket.id

/-- Recipients of `socket.broadcast.emit(...)`: every open socket but `sid`. -/
def broadcast (st : State) (sid : SocketId) : List SocketId :=
  (st.sockets.filter (fun s => decide (s.id ≠ sid))).map Socket.id

/-! ## The handlers of `io.on('connection', ...)` -/

/-- Handler `socket.on('user_online', (userId) => ...)`, index.js 141-149. -/
def user_online (st : State) (sid : SocketId) (userId : JSVal) : Outcome :=
  { st :=
      { connectedUsers := mapSet st.connectedUsers userId sid
        sockets := st.sockets.map
          (fun s => if s.id = sid then { s with userId := userId } else s) }
    out := [⟨broadcast st sid, "user_status_changed",
      [("userId", .val userId), ("status", .val (str "online"))]⟩]
    threw := false }

/-- Handler `socket.on('join_chat', (matchId) => ...)`, index.js 151-153. -/
def join_chat (st : State) (sid : SocketId) (matchId : JSVal) : Outcome :=
  let sockets := st.sockets.map (fun s => if s.id = sid then s.join matchId else s)
  ⟨{ st with sockets := sockets }, [], false⟩

/-- Handler `socket.on('send_message', (data) => ...)`, index.js 155-168.
`now` is the reading of `new Date()`. Destructuring a `null` or `undefined`
`data` throws before anything is emitted; `message._id` throws on a `null`
or `undefined` `message`, after `receive_message` has been emitted. -/
def send_message (st : State) (sid : SocketId) (data : JSVal) (now : Nat) : Outcome :=
  if isNullish data then ⟨st, [], true⟩
  else
    let matchId := getProp data "matchId"
    let message := getProp data "message"
    let senderId := getProp data "senderId"
    let received : Emit := ⟨toRoom st sid matchId, "receive_message",
      spreadOut message ++ [("senderId", .val senderId), ("timestamp", .date now)]⟩
    if isNullish message then ⟨st, [received], true⟩
    else
      ⟨st, [received, ⟨toRoom st sid matchId, "message_status",
        [("messageId", .val (getProp message "_id")),
         ("status", .val (str "delivered"))]⟩], false⟩

/-- Handler `socket.on('message_read', (data) => ...)`, index.js 170-178. -/
def message_read (st : State) (sid : SocketId) (data : JSVal) : Outcome :=
  if isNullish data then ⟨st, [], true⟩
  else
    let matchId := getProp data "matchId"
    let messageId := getProp data "messageId"
    let userId := getProp data "userId"
    ⟨st, [⟨toRoom st sid matchId, "message_status",
      [("messageId", .val messageId), ("status", .val (str "read")),
       ("readBy", .val userId)]⟩], false⟩

/-- Body shared by the two typing handlers, which differ in the flag only. -/
def typing (flag : Bool) (st : State) (sid : SocketId) (data : JSVal) : Outcome :=
  if isNullish data then ⟨st, [], true⟩
  else
    let matchId := getProp data "matchId"
    let userId := getProp data "userId"
    ⟨st, [⟨toRoom st sid matchId, "user_typing",
      [("userId", .val userId), ("typing", .val (bool flag))]⟩], false⟩

/-- Handler `socket.on('typing_start', ({ matchId, userId }) => ...)`,
index.js 180-185. -/
def typing_start (st : State) (sid : SocketId) (data : JSVal) : Outcome :=
  typing true st sid data

/-- Handler `socket.on('typing_stop', ({ matchId, userId }) => ...)`,
index.js 187-192. -/
def typing_stop (st : State) (sid : SocketId) (data : JSVal) : Outcome :=
  typing false st sid data

/-- Handler `socket.on('disconnect', () => ...)`, index.js 194-204, run on a
state `st` from which socket.io has already removed `socket`. -/
def disconnect (st : State) (socket : Socket) : Outcome :=
  if truthy socket.userId then
    { st := { st with connectedUsers := mapDelete st.connectedUsers socket.userId }
      out := [⟨broadcast st socket.id, "user_status_changed",
        [("userId", .val socket.userId), ("status", .val (str "offline"))]⟩]
      threw := false }
  else ⟨st, [], false⟩

/-! ## Events and runs -/

/-- What can happen to the relay: a client connects, one of its events
arrives, its socket closes. `send_message` carries the clock reading of the
moment it is handled. -/
inductive Event where
  | connection (sid : SocketId)
  | user_online (sid : SocketId) (userId : JSVal)
  | join_chat (sid : SocketId) (matchId : JSVal)
  | send_message (sid : SocketId) (data : JSVal) (now : Nat)
  | message_read (sid : SocketId) (data : JSVal)
  | typing_start (sid : SocketId) (data : JSVal)
  | typing_stop (sid : SocketId) (data : JSVal)
  | disconnect (sid : SocketId)
deriving DecidableEq

/-- Dispatch of one event. A connection opens a socket with a fresh id, no
`userId` and its own room; an event of a socket that is not open does not
occur; on disconnect socket.io drops the socket and its room memberships and
then runs the handler. -/
def step (st : State) : Event → Outcome
  | .connection sid =>
    if st.isOpen sid then ⟨st, [], false⟩
    else ⟨{ st with sockets := st.sockets ++ [⟨sid, undefined, [str sid]⟩] }, [], false⟩
  | .user_online sid userId =>
    if st.isOpen sid then user_online st sid userId else ⟨st, [], false⟩
  | .join_chat sid matchId =>
    if st.isOpen sid then join_chat st sid matchId else ⟨st, [], false⟩
  | .send_message sid data now =>
    if st.isOpen sid then send_message st sid data now else ⟨st, [], false⟩
  | .message_read sid data =>
    if st.isOpen sid then message_read st sid data else ⟨st, [], false⟩
  | .typing_start sid data =>
    if st.isOpen sid then typing_start st sid data else ⟨st, [], false⟩
  | .typing_stop sid data =>
    if st.isOpen sid then typing_stop st sid data else ⟨st, [], false⟩
  | .disconnect sid =>
    match st.sockets.find? (fun s => s.id = sid) with
    | none => ⟨st, [], false⟩
    | some socket =>
      disconnect { st with sockets := st.sockets.filter (fun s => decide (s.id ≠ sid)) } socket

/-- The state after a sequence of events. The state a throwing handler
leaves is kept and the run goes on with the next event: the runs of a process
that survives the throw; a process that the uncaught throw ends has no later
state, and its runs are the prefixes without a throw. -/
def run (st : State) (evs : List Event) : State :=
  evs.foldl (fun s ev => (step s ev).st) st

/-- The events emitted along a sequence of events, in order. -/
def emitted : State → List Event → List Emit
  | _, [] => []
  | st, ev :: evs => (step st ev).out ++ emitted (step st ev).st evs

/-- What socket `sid` receives from a list of emitted events, in order. -/
def received (out : List Emit) (sid : SocketId) : List (String × Payload) :=
  (out.filter (fun e => decide (sid ∈ e.dest))).map (fun e => (e.event, e.payload))

/-- The sockets that are in `room`. -/
def State.members (st : State) (room : JSVal) : List SocketId :=
  (st.sockets.filter (fun s => s.inRoom room)).map Socket.id

/-- Socket `c`, if open, has no `userId`. -/
def NoUser (st : State) (c : SocketId) : Prop :=
  ∀ s ∈ st.sockets, s.id = c → s.userId = undefined

/-! ## Scenario data -/

/-- Sockets `A` and `B` connected and both in room `m1`. -/
def roomM1 : State :=
  run State.init [.connection "A", .connection "B",
    .join_chat "A" (str "m1"), .join_chat "B" (str "m1")]

/-- The `send_message` payload with the field names of the specification's
scenario: `{conversationId: "m1", message: {_id: "x1", text: "hi"}, senderId: "A"}`. -/
def payloadConversationId : JSVal :=
  obj 1 [("conversationId", str "m1"),
    ("message", obj 2 [("_id", str "x1"), ("text", str "hi")]), ("senderId", str "A")]

/-- The same payload under the field name the handler reads:
`{matchId: "m1", message: {_id: "x1", text: "hi"}, senderId: "A"}`. -/
def payloadMatchId : JSVal :=
  obj 1 [("matchId", str "m1"),
    ("message", obj 2 [("_id", str "x1"), ("text", str "hi")]), ("senderId", str "A")]

/-- A payload whose message has a `senderId` and a `timestamp` of its own:
`{matchId: "m1", message: {_id: "x1", text: "hi", senderId: "Z", timestamp: 1},
senderId: "A"}`. -/
def payloadOwnStamp : JSVal :=
  obj 1 [("matchId", str "m1"),
    ("message", obj 2 [("_id", str "x1"), ("text", str "hi"), ("senderId", str "Z"),
      ("timestamp", num 1)]),
    ("senderId", str "A")]

/-! ## Facts about the comparison of keys -/

theorem sameValueZero_self (a : JSVal) : sameValueZero a a = true := by
  cases a <;> simp [sameValueZero]

theorem sameValueZero_symm (a b : JSVal) : sameValueZero a b = sameValueZero b a := by
  cases a <;> cases b <;> simp [sameValueZero, eq_comm]

theorem sameValueZero_trans (a b c : JSVal) (h1 : sameValueZero a b = true)
    (h2 : sameValueZero b c = true) : sameValueZero a c = true := by
  cases a <;> cases b <;> simp [sameValueZero] at h1 <;>
    cases c <;> simp [sameValueZero] at h2 ⊢ <;> simp_all

/-! ## Facts about the map operations -/

theorem mapGet_mapSet_self (m : UserMap) (k : JSVal) (v : SocketId) :
    mapGet (mapSet m k v) k = some v := by
  induction m with
  | nil => simp [mapSet, mapGet, sameValueZero_self]
  | cons e rest ih =>
    obtain ⟨k', v'⟩ := e
    by_cases h : sameValueZero k' k = true
    · simp [mapSet, mapGet, h]
    · simp [mapSet, mapGet, h, ih]

theorem mem_mapSet (m : UserMap) (k : JSVal) (v : SocketId) (e : JSVal × SocketId)
    (he : e ∈ mapSet m k v) : e.1 = k ∨ ∃ e' ∈ m, e'.1 = e.1 := by
  induction m with
  | nil =>
    simp only [mapSet, List.mem_singleton] at he
    left; rw [he]
  | cons a rest ih =>
    obtain ⟨k', v'⟩ := a
    by_cases h : sameValueZero k' k = true
    · have he' : e ∈ (k', v) :: rest := by simpa [mapSet, h] using he
      rcases List.mem_cons.mp he' with h0 | h0
      · right; exact ⟨(k', v'), List.mem_cons_self _ _, by rw [h0]⟩
      · right; exact ⟨e, List.mem_cons_of_mem _ h0, rfl⟩
    · have he' : e ∈ (k', v') :: mapSet rest k v := by simpa [mapSet, h] using he
      rcases List.mem_cons.mp he' with h0 | h0
      · right; exact ⟨(k', v'), List.mem_cons_self _ _, by rw [h0]⟩
      · rcases ih h0 with h1 | ⟨e', he', h2⟩
        · left; exact h1
        · right; exact ⟨e', List.mem_cons_of_mem _ he', h2⟩

theorem uniqueKeys_mapSet (m : UserMap) (k : JSVal) (v : SocketId)
    (h : UniqueKeys m) : UniqueKeys (mapSet m k v) := by
  induction m with
  | nil => simp [mapSet, UniqueKeys]
  | cons a rest ih =>
    obtain ⟨k', v'⟩ := a
    obtain ⟨h1, h2⟩ := h
    by_cases hk : sameValueZero k' k = true
    · simp only [mapSet, hk, if_true]
      exact ⟨h1, h2⟩
    · simp only [mapSet, hk]
      refine ⟨?_, ih h2⟩
      intro e he
      rcases mem_mapSet rest k v e he with h3 | ⟨e', he', h3⟩
      · rw [h3]; simpa using hk
      · rw [← h3]; exact h1 e' he'

theorem entriesOf_mapSet (m : UserMap) (k : JSVal) (v : SocketId)
    (h : UniqueKeys m) :
    ∃ k0, entriesOf (mapSet m k v) k = [(k0, v)] ∧ sameValueZero k0 k = true := by
  induction m with
  | nil => exact ⟨k, by simp [mapSet, entriesOf, sameValueZero_self], sameValueZero_self k⟩
  | cons a rest ih =>
    obtain ⟨k', v'⟩ := a
    obtain ⟨h1, h2⟩ := h
    by_cases hk : sameValueZero k' k = true
    · refine ⟨k', ?_, hk⟩
      have hnone : rest.filter (fun e => sameValueZero e.1 k) = [] := by
        apply List.filter_eq_nil_iff.mpr
        intro e he hek
        have := sameValueZero_trans k' k e.1 hk (by rw [sameValueZero_symm]; exact hek)
        rw [h1 e he] at this
        cases this
      simp only [mapSet, hk, if_true, entriesOf, List.filter_cons, hnone]
    · obtain ⟨k0, hk0, hs⟩ := ih h2
      refine ⟨k0, ?_, hs⟩
      have hk' : sameValueZero k' k = false := by simpa using hk
      simp only [entriesOf] at hk0
      simp [mapSet, hk', entriesOf, List.filter_cons, hk0]

theorem mapDelete_mapSet (m : UserMap) (k : JSVal) (v : SocketId) :
    mapDelete (mapSet m k v) k = mapDelete m k := by
  induction m with
  | nil => simp [mapSet, mapDelete, sameValueZero_self]
  | cons e rest ih =>
    obtain ⟨k', v'⟩ := e
    by_cases hk : sameValueZero k' k = true
    · simp [mapSet, hk, mapDelete]
    · simp [mapSet, hk, mapDelete, ih]

theorem mapDelete_absent (m : UserMap) (k : JSVal) (h : mapGet m k = none) :
    mapDelete m k = m := by
  induction m with
  | nil => simp [mapDelete]
  | cons e rest ih =>
    obtain ⟨k', v'⟩ := e
    by_cases hk : sameValueZero k' k = true
    · simp [mapGet, hk] at h
    · simp only [mapGet, hk] at h
      simp [mapDelete, hk, ih h]

theorem mapGet_mapDelete_self (m : UserMap) (k : JSVal) :
    mapGet (mapDelete m k) k = none := by
  induction m with
  | nil => simp [mapDelete, mapGet]
  | cons e rest ih =>
    obtain ⟨k', v'⟩ := e
    by_cases hk : sameValueZero k' k = true
    · simp [mapDelete, hk, ih]
    · simp [mapDelete, hk, mapGet, ih]

/-! ## Facts about sockets -/

theorem isOpen_user_online (st : State) (sid c : SocketId) (u : JSVal) :
    (user_online st sid u).st.isOpen c = st.isOpen c := by
  simp only [user_online, State.isOpen, List.any_map]
  congr 1
  funext s
  by_cases h : s.id = sid <;> simp [h]

theorem mem_toRoom (st : State) (sid c : SocketId) (room : JSVal) :
    c ∈ toRoom st sid room ↔ c ∈ st.members room ∧ c ≠ sid := by
  simp only [toRoom, State.members, List.mem_map, List.mem_filter, Bool.and_eq_true,
    decide_eq_true_eq]
  constructor
  · rintro ⟨x, ⟨hx, hr, hne⟩, rfl⟩
    exact ⟨⟨x, ⟨hx, hr⟩, rfl⟩, hne⟩
  · rintro ⟨⟨x, ⟨hx, hr⟩, rfl⟩, hne⟩
    exact ⟨x, ⟨hx, hr, hne⟩, rfl⟩

theorem toRoom_eq_nil (st : State) (sid : SocketId) (room : JSVal)
    (h : ∀ c ∈ st.members room, c = sid) : toRoom st sid room = [] := by
  apply List.eq_nil_iff_forall_not_mem.mpr
  intro c hc
  rw [mem_toRoom] at hc
  exact hc.2 (h c hc.1)

theorem received_singleton (d : List SocketId) (ev : String) (p : Payload) (c : SocketId) :
    received [⟨d, ev, p⟩] c ≠ [] ↔ c ∈ d := by
  by_cases h : c ∈ d <;> simp [received, h]

theorem received_pair (d : List SocketId) (ev1 ev2 : String) (p1 p2 : Payload)
    (c : SocketId) : received [⟨d, ev1, p1⟩, ⟨d, ev2, p2⟩] c ≠ [] ↔ c ∈ d := by
  by_cases h : c ∈ d <;> simp [received, h]

theorem received_send_message (st : State) (sid : SocketId) (data : JSVal) (now : Nat)
    (c : SocketId) (hdata : isNullish data = false) :
    received (send_message st sid data now).out c ≠ [] ↔
      c ∈ toRoom st sid (getProp data "matchId") := by
  unfold send_message
  by_cases h2 : isNullish (getProp data "message") = true
  · simp only [hdata, h2, if_true]
    exact received_singleton _ _ _ _
  · simp only [hdata, h2]
    exact received_pair _ _ _ _ _ _

theorem received_message_read (st : State) (sid : SocketId) (data : JSVal)
    (c : SocketId) (hdata : isNullish data = false) :
    received (message_read st sid data).out c ≠ [] ↔
      c ∈ toRoom st sid (getProp data "matchId") := by
  unfold message_read
  simp only [hdata]
  exact received_singleton _ _ _ _

theorem received_typing (flag : Bool) (st : State) (sid : SocketId) (data : JSVal)
    (c : SocketId) (hdata : isNullish data = false) :
    received (typing flag st sid data).out c ≠ [] ↔
      c ∈ toRoom st sid (getProp data "matchId") := by
  unfold typing
  simp only [hdata]
  exact received_singleton _ _ _ _

theorem received_nil (c : SocketId) : received [] c = [] := rfl

theorem received_self_send_message (st : State) (sid : SocketId) (data : JSVal)
    (now : Nat) : received (send_message st sid data now).out sid = [] := by
  by_cases hdata : isNullish data = true
  · simp [send_message, hdata, received]
  · have hd : isNullish data = false := by simpa using hdata
    by_contra h
    exact ((mem_toRoom _ _ _ _).mp ((received_send_message st sid data now sid hd).mp h)).2 rfl

theorem received_self_message_read (st : State) (sid : SocketId) (data : JSVal) :
    received (message_read st sid data).out sid = [] := by
  by_cases hdata : isNullish data = true
  · simp [message_read, hdata, received]
  · have hd : isNullish data = false := by simpa using hdata
    by_contra h
    exact ((mem_toRoom _ _ _ _).mp ((received_message_read st sid data sid hd).mp h)).2 rfl

theorem received_self_typing (flag : Bool) (st : State) (sid : SocketId) (data : JSVal) :
    received (typing flag st sid data).out sid = [] := by
  by_cases hdata : isNullish data = true
  · simp [typing, hdata, received]
  · have hd : isNullish data = false := by simpa using hdata
    by_contra h
    exact ((mem_toRoom _ _ _ _).mp ((received_typing flag st sid data sid hd).mp h)).2 rfl

theorem lookup_append {α : Type} (a b : List (String × α)) (k : String) :
    lookup (a ++ b) k = (lookup b k).orElse (fun _ => lookup a k) := by
  induction a with
  | nil => cases h : lookup b k <;> simp [lookup, h]
  | cons e rest ih =>
    obtain ⟨k', v⟩ := e
    show lookup ((k', v) :: (rest ++ b)) k = _
    rw [lookup, ih, lookup]
    cases lookup b k <;> simp

theorem lookup_map_val (fields : List (String × JSVal)) (k : String) :
    lookup (fields.map (fun p => (p.1, OutVal.val p.2))) k
      = (lookup fields k).map OutVal.val := by
  induction fields with
  | nil => rfl
  | cons e rest ih =>
    obtain ⟨k', v⟩ := e
    show lookup ((k', OutVal.val v) :: rest.map (fun p => (p.1, OutVal.val p.2))) k = _
    rw [lookup, ih, lookup]
    cases lookup rest k <;> by_cases h : k' = k <;> simp [h]

theorem send_message_st (st : State) (sid : SocketId) (data : JSVal) (now : Nat) :
    (send_message st sid data now).st = st := by
  unfold send_message
  by_cases h1 : isNullish data = true
  · simp [h1]
  · by_cases h2 : isNullish (getProp data "message") = true <;> simp [h1, h2]

theorem message_read_st (st : State) (sid : SocketId) (data : JSVal) :
    (message_read st sid data).st = st := by
  unfold message_read
  by_cases h1 : isNullish data = true <;> simp [h1]

theorem typing_st (flag : Bool) (st : State) (sid : SocketId) (data : JSVal) :
    (typing flag st sid data).st = st := by
  unfold typing
  by_cases h1 : isNullish data = true <;> simp [h1]

theorem join_id (s : Socket) (room : JSVal) : (s.join room).id = s.id := by
  unfold Socket.join; split <;> rfl

theorem join_userId (s : Socket) (room : JSVal) : (s.join room).userId = s.userId := by
  unfold Socket.join; split <;> rfl

theorem noUser_of_closed (st : State) (c : SocketId) (h : st.isOpen c = false) :
    NoUser st c := by
  intro s hs hid
  have : st.isOpen c = true := by
    simp only [State.isOpen, List.any_eq_true, decide_eq_true_eq]
    exact ⟨s, hs, hid⟩
  rw [h] at this
  cases this

theorem noUser_step (st : State) (ev : Event) (c : SocketId) (h : NoUser st c)
    (hev : ∀ u, ev ≠ .user_online c u) : NoUser (step st ev).st c := by
  cases ev with
  | connection sid =>
    simp only [step]
    split
    · exact h
    · intro s hs hid
      simp only [List.mem_append, List.mem_singleton] at hs
      rcases hs with hs | hs
      · exact h s hs hid
      · rw [hs]
  | user_online sid u =>
    simp only [step]
    split
    · intro s hs hid
      simp only [user_online, List.mem_map] at hs
      obtain ⟨s0, hs0, rfl⟩ := hs
      by_cases hsid : s0.id = sid
      · simp only [hsid, if_true] at hid
        exact absurd (hid ▸ rfl) (hev u)
      · simp only [hsid, if_false] at hid ⊢
        exact h s0 hs0 hid
    · exact h
  | join_chat sid m =>
    simp only [step]
    split
    · intro s hs hid
      simp only [join_chat, List.mem_map] at hs
      obtain ⟨s0, hs0, rfl⟩ := hs
      by_cases hsid : s0.id = sid
      · simp only [hsid, if_true, join_id, join_userId] at hid ⊢
        exact h s0 hs0 (hsid.trans hid)
      · simp only [hsid, if_false] at hid ⊢
        exact h s0 hs0 hid
    · exact h
  | send_message sid d n =>
    simp only [step]
    split
    · rw [send_message_st]; exact h
    · exact h
  | message_read sid d =>
    simp only [step]
    split
    · rw [message_read_st]; exact h
    · exact h
  | typing_start sid d =>
    simp only [step]
    split
    · rw [typing_start, typing_st]; exact h
    · exact h
  | typing_stop sid d =>
    simp only [step]
    split
    · rw [typing_stop, typing_st]; exact h
    · exact h
  | disconnect sid =>
    simp only [step]
    split
    · exact h
    · intro s hs hid
      have hs' : s ∈ st.sockets := by
        unfold disconnect at hs
        split at hs <;> exact (List.mem_filter.mp hs).1
      exact h s hs' hid

theorem noUser_run (evs : List Event) (st : State) (c : SocketId) (h : NoUser st c)
    (hev : ∀ u, Event.user_online c u ∉ evs) : NoUser (run st evs) c := by
  induction evs generalizing st with
  | nil => exact h
  | cons ev rest ih =>
    have hrun : run st (ev :: rest) = run (step st ev).st rest := rfl
    rw [hrun]
    apply ih
    · apply noUser_step st ev c h
      intro u e
      exact hev u (e ▸ List.mem_cons_self _ _)
    · intro u hu
      exact hev u (List.mem_cons_of_mem _ hu)

theorem filter_ne_of_closed (l : List Socket) (c : SocketId)
    (h : ∀ s ∈ l, s.id ≠ c) : l.filter (fun s => decide (s.id ≠ c)) = l := by
  apply List.filter_eq_self.mpr
  intro s hs
  simpa using h s hs

theorem map_update_of_closed (l : List Socket) (c : SocketId) (f : Socket → Socket)
    (h : ∀ s ∈ l, s.id ≠ c) : l.map (fun s => if s.id = c then f s else s) = l := by
  induction l with
  | nil => rfl
  | cons a rest ih =>
    have ha : a.id ≠ c := h a (List.mem_cons_self _ _)
    have hr := ih (fun s hs => h s (List.mem_cons_of_mem _ hs))
    simp [ha, hr]

theorem find_of_closed (l : List Socket) (c : SocketId) (x : Socket)
    (h : ∀ s ∈ l, s.id ≠ c) (hx : x.id = c) :
    (l ++ [x]).find? (fun s => decide (s.id = c)) = some x := by
  induction l with
  | nil => simp [hx]
  | cons a rest ih =>
    have ha : a.id ≠ c := h a (List.mem_cons_self _ _)
    have hr := ih (fun s hs => h s (List.mem_cons_of_mem _ hs))
    simp only [List.cons_append, List.find?_cons, ha, decide_False]
    exact hr

theorem ne_of_closed (st : State) (c : SocketId) (h : st.isOpen c = false) :
    ∀ s ∈ st.sockets, s.id ≠ c := by
  intro s hs hid
  have : st.isOpen c = true := by
    simp only [State.isOpen, List.any_eq_true, decide_eq_true_eq]
    exact ⟨s, hs, hid⟩
  rw [h] at this
  cases this

/-- Two decoded objects with the same properties are two keys: each socket
that announces its own `{id: 1}` gets an entry of its own. -/
theorem decoded_objects_are_distinct_keys :
    (run State.init [.connection "c1", .connection "c2",
      .user_online "c1" (obj 1 [("id", num 1)]),
      .user_online "c2" (obj 2 [("id", num 1)])]).connectedUsers
      = [(obj 1 [("id", num 1)], "c1"), (obj 2 [("id", num 1)], "c2")] := by
  decide

/-- The spread of a string goes by UTF-16 code units: a character beyond
U+FFFF gives two properties, one per surrogate. -/
theorem spread_goes_by_code_units :
    spread (str "😀") = [("0", str [55357]), ("1", str [56832])] := by
  decide

/-! ## Claims -/

/-- C1. Last-writer-wins registration: when socket `c1` handles
`user_online(u)` and then socket `c2` handles `user_online(u)`, looking `u` up
in `connectedUsers` gives `c2`, and the map holds exactly one entry for `u`,
whose value is `c2`. -/
theorem last_writer_wins (st : State) (u : JSVal) (c1 c2 : SocketId)
    (hmap : UniqueKeys st.connectedUsers)
    (h1 : st.isOpen c1 = true) (h2 : st.isOpen c2 = true) :
    mapGet (run st [.user_online c1 u, .user_online c2 u]).connectedUsers u = some c2 ∧
    ∃ k, entriesOf (run st [.user_online c1 u, .user_online c2 u]).connectedUsers u
      = [(k, c2)] ∧ sameValueZero k u = true := by
  have h2' : (user_online st c1 u).st.isOpen c2 = true := by
    rw [isOpen_user_online]; exact h2
  have hst : (run st [.user_online c1 u, .user_online c2 u]).connectedUsers
      = mapSet (mapSet st.connectedUsers u c1) u c2 := by
    simp [run, step, h1, h2']
    simp [user_online]
  rw [hst]
  exact ⟨mapGet_mapSet_self _ _ _,
    entriesOf_mapSet _ _ _ (uniqueKeys_mapSet _ _ _ hmap)⟩

/-- Witness of C1: sockets `c1` and `c2` open on a fresh process, user `"u"`. -/
theorem last_writer_wins_witness :
    mapGet (run (run State.init [.connection "c1", .connection "c2"])
      [.user_online "c1" (str "u"), .user_online "c2" (str "u")]).connectedUsers (str "u")
      = some "c2" ∧
    ∃ k, entriesOf (run (run State.init [.connection "c1", .connection "c2"])
      [.user_online "c1" (str "u"), .user_online "c2" (str "u")]).connectedUsers (str "u")
      = [(k, "c2")] ∧ sameValueZero k (str "u") = true :=
  last_writer_wins (run State.init [.connection "c1", .connection "c2"]) (str "u") "c1" "c2"
    (by decide) (by decide) (by decide)

/-- C2, as stated, fails: with the payload
`{conversationId: "m1", message: {_id: "x1", text: "hi"}, senderId: "A"}` the
handler reads `matchId`, finds `undefined`, and emits to the room `undefined`:
`B`, a member of `"m1"`, receives nothing. -/
theorem send_message_conversationId_reaches_nobody :
    received (emitted State.init [.connection "A", .connection "B",
      .join_chat "A" (str "m1"), .join_chat "B" (str "m1"),
      .send_message "A" payloadConversationId 1700000000000]) "B" = [] := by
  decide

/-- C2, amended: after `A` and `B` joined `"m1"`, when `A` sends
`{matchId: "m1", message: {_id: "x1", text: "hi"}, senderId: "A"}` at clock
reading `now`, `B` receives `receive_message` with the fields of the message,
`senderId: "A"` and `timestamp: now`, then
`message_status {messageId: "x1", status: "delivered"}`, and `A` receives
nothing. -/
theorem send_message_matchId_scenario (now : Nat) :
    received (emitted State.init [.connection "A", .connection "B",
      .join_chat "A" (str "m1"), .join_chat "B" (str "m1"),
      .send_message "A" payloadMatchId now]) "B"
      = [("receive_message", [("_id", .val (str "x1")), ("text", .val (str "hi")),
            ("senderId", .val (str "A")), ("timestamp", .date now)]),
         ("message_status", [("messageId", .val (str "x1")),
            ("status", .val (str "delivered"))])] ∧
    received (emitted State.init [.connection "A", .connection "B",
      .join_chat "A" (str "m1"), .join_chat "B" (str "m1"),
      .send_message "A" payloadMatchId now]) "A" = [] := by
  constructor <;> rfl

/-- C4: the code breaks the claim. User `"u"` registers on `c1`, then on
`c2`; `connectedUsers` maps `"u"` to `c2`. When `c1` disconnects, its handler
deletes the key `"u"`, that is, the entry of `c2`: the lookup finds nothing,
and `c2`, still open, is announced offline. -/
theorem disconnect_deletes_entry_of_other_socket :
    mapGet (run State.init [.connection "c1", .connection "c2",
      .user_online "c1" (str "u"), .user_online "c2" (str "u")]).connectedUsers (str "u")
      = some "c2" ∧
    mapGet (run State.init [.connection "c1", .connection "c2",
      .user_online "c1" (str "u"), .user_online "c2" (str "u"),
      .disconnect "c1"]).connectedUsers (str "u") = none ∧
    (run State.init [.connection "c1", .connection "c2",
      .user_online "c1" (str "u"), .user_online "c2" (str "u"),
      .disconnect "c1"]).isOpen "c2" = true := by
  decide

/-- C8: the code breaks the claim. Socket `c1` announces `"u1"` and then
`"u2"`; its `userId` property keeps `"u2"` only, so its disconnect handler
deletes `"u2"` and leaves the entry `"u1" -> c1` of a socket that is closed. -/
theorem entry_outlives_socket :
    (run State.init [.connection "c1", .user_online "c1" (str "u1"),
      .user_online "c1" (str "u2"), .disconnect "c1"]).connectedUsers
      = [(str "u1", "c1")] ∧
    (run State.init [.connection "c1", .user_online "c1" (str "u1"),
      .user_online "c1" (str "u2"), .disconnect "c1"]).isOpen "c1" = false := by
  decide

/-- C3. No echo to the sender: whatever the payload, socket `s` receives
nothing of what its `send_message`, `message_read`, `typing_start` or
`typing_stop` handler emits, member of the room or not; and for a payload
that is neither `null` nor `undefined`, the sockets that receive something
from the handler are exactly the members of the room `matchId` other
than `s`. -/
theorem no_echo_to_sender (st : State) (s : SocketId) (data : JSVal) (now : Nat) :
    (received (send_message st s data now).out s = [] ∧
      received (message_read st s data).out s = [] ∧
      received (typing_start st s data).out s = [] ∧
      received (typing_stop st s data).out s = []) ∧
    (isNullish data = false → ∀ c,
      (received (send_message st s data now).out c ≠ [] ↔
        (c ∈ st.members (getProp data "matchId") ∧ c ≠ s)) ∧
      (received (message_read st s data).out c ≠ [] ↔
        (c ∈ st.members (getProp data "matchId") ∧ c ≠ s)) ∧
      (received (typing_start st s data).out c ≠ [] ↔
        (c ∈ st.members (getProp data "matchId") ∧ c ≠ s)) ∧
      (received (typing_stop st s data).out c ≠ [] ↔
        (c ∈ st.members (getProp data "matchId") ∧ c ≠ s))) := by
  refine ⟨⟨received_self_send_message st s data now, received_self_message_read st s data,
    received_self_typing true st s data, received_self_typing false st s data⟩, ?_⟩
  intro hdata c
  exact ⟨(received_send_message st s data now c hdata).trans (mem_toRoom _ _ _ _),
    (received_message_read st s data c hdata).trans (mem_toRoom _ _ _ _),
    (received_typing true st s data c hdata).trans (mem_toRoom _ _ _ _),
    (received_typing false st s data c hdata).trans (mem_toRoom _ _ _ _)⟩

/-- Witness of C3: `A` and `B` are in `"m1"`; of what the handlers of `A`
emit for `"m1"`, `A` receives nothing and `B`, the other member, receives
something from each of the four. -/
theorem no_echo_to_sender_witness :
    received (send_message roomM1 "A" payloadMatchId 7).out "A" = [] ∧
    (received (send_message roomM1 "A" payloadMatchId 7).out "B" ≠ [] ↔
      ("B" ∈ roomM1.members (getProp payloadMatchId "matchId") ∧ "B" ≠ "A")) ∧
    (received (message_read roomM1 "A" payloadMatchId).out "B" ≠ [] ↔
      ("B" ∈ roomM1.members (getProp payloadMatchId "matchId") ∧ "B" ≠ "A")) ∧
    (received (typing_start roomM1 "A" payloadMatchId).out "B" ≠ [] ↔
      ("B" ∈ roomM1.members (getProp payloadMatchId "matchId") ∧ "B" ≠ "A")) ∧
    (received (typing_stop roomM1 "A" payloadMatchId).out "B" ≠ [] ↔
      ("B" ∈ roomM1.members (getProp payloadMatchId "matchId") ∧ "B" ≠ "A")) :=
  ⟨(no_echo_to_sender roomM1 "A" payloadMatchId 7).1.1,
   (no_echo_to_sender roomM1 "A" payloadMatchId 7).2 (by decide) "B"⟩

/-- C9. Empty-room relay is a silent drop: when the payload is an object
with a message and the room it names has no member other than the sender
(none at all included), `send_message` does not throw and no socket receives
anything. -/
theorem empty_room_silent_drop (st : State) (s : SocketId) (data : JSVal) (now : Nat)
    (hdata : isNullish data = false)
    (hmsg : isNullish (getProp data "message") = false)
    (halone : ∀ c ∈ st.members (getProp data "matchId"), c = s) :
    (send_message st s data now).threw = false ∧
    ∀ c, received (send_message st s data now).out c = [] := by
  have hr := toRoom_eq_nil st s _ halone
  simp [send_message, hdata, hmsg, hr, received]

/-- Witness of C9: `A` alone is in `"m1"`, `B` is connected but has not
joined. -/
theorem empty_room_silent_drop_witness :
    (send_message (run State.init [.connection "A", .connection "B",
      .join_chat "A" (str "m1")]) "A" payloadMatchId 7).threw = false ∧
    ∀ c, received (send_message (run State.init [.connection "A", .connection "B",
      .join_chat "A" (str "m1")]) "A" payloadMatchId 7).out c = [] :=
  empty_room_silent_drop (run State.init [.connection "A", .connection "B",
      .join_chat "A" (str "m1")]) "A" payloadMatchId 7 (by decide) (by decide) (by decide)

/-- C10. Server stamping overrides client fields: for a payload object whose
`message` is an object with the properties `mf`, `send_message` does not
throw and emits exactly `receive_message` and then
`message_status {messageId: message._id, status: "delivered"}`, both to the
members of the room `matchId` other than the sender; in the forwarded object
`senderId` is the top-level `senderId` of the payload, `timestamp` is the
clock reading, and every other name has exactly the value (or absence) it
has in `mf`. -/
theorem server_stamping (st : State) (s : SocketId) (now : Nat) (rd rm : Nat)
    (df mf : List (String × JSVal))
    (hmsg : lookup df "message" = some (obj rm mf)) :
    (send_message st s (obj rd df) now).threw = false ∧
    ∃ fields : Payload,
      (send_message st s (obj rd df) now).out =
        [⟨toRoom st s ((lookup df "matchId").getD undefined), "receive_message", fields⟩,
         ⟨toRoom st s ((lookup df "matchId").getD undefined), "message_status",
           [("messageId", .val ((lookup mf "_id").getD undefined)),
            ("status", .val (str "delivered"))]⟩] ∧
      lookup fields "senderId" = some (.val ((lookup df "senderId").getD undefined)) ∧
      lookup fields "timestamp" = some (.date now) ∧
      ∀ k, k ≠ "senderId" → k ≠ "timestamp" →
        lookup fields k = (lookup mf k).map OutVal.val := by
  have hm : getProp (obj rd df) "message" = obj rm mf := by simp [getProp, hmsg]
  refine ⟨by simp [send_message, isNullish, hm], mf.map (fun p => (p.1, OutVal.val p.2)) ++
    [("senderId", .val ((lookup df "senderId").getD undefined)), ("timestamp", .date now)],
    ?_, ?_, ?_, ?_⟩
  · simp [send_message, isNullish, hm, spreadOut, spread]
    simp [getProp]
  · simp [lookup_append, lookup]
  · simp [lookup_append, lookup]
  · intro k h1 h2
    have h1' : ¬ "senderId" = k := fun e => h1 e.symm
    have h2' : ¬ "timestamp" = k := fun e => h2 e.symm
    simp [lookup_append, lookup, h1', h2', lookup_map_val]

/-- Witness of C10: the message carries a `senderId` and a `timestamp` of
its own; `B`, the other member of `"m1"`, is the recipient of both events. -/
theorem server_stamping_witness :
    (send_message roomM1 "A" payloadOwnStamp 7).threw = false ∧
    ∃ fields : Payload,
      (send_message roomM1 "A" payloadOwnStamp 7).out =
        [⟨["B"], "receive_message", fields⟩,
         ⟨["B"], "message_status",
           [("messageId", .val (str "x1")), ("status", .val (str "delivered"))]⟩] ∧
      lookup fields "senderId" = some (.val (str "A")) ∧
      lookup fields "timestamp" = some (.date 7) ∧
      ∀ k, k ≠ "senderId" → k ≠ "timestamp" →
        lookup fields k = (lookup [("_id", str "x1"), ("text", str "hi"),
          ("senderId", str "Z"), ("timestamp", num 1)] k).map OutVal.val :=
  server_stamping roomM1 "A" 7 1 2
    [("matchId", str "m1"),
     ("message", obj 2 [("_id", str "x1"), ("text", str "hi"), ("senderId", str "Z"),
       ("timestamp", num 1)]),
     ("senderId", str "A")]
    [("_id", str "x1"), ("text", str "hi"), ("senderId", str "Z"), ("timestamp", num 1)]
    (by decide)

/-- C5. Anonymous disconnect is silent: a socket that opens and handles any
events but `user_online` has no `userId`, so when it disconnects its handler
emits nothing, does not throw, and leaves `connectedUsers` as it was. -/
theorem anonymous_disconnect_silent (st : State) (evs : List Event) (c : SocketId)
    (hclosed : st.isOpen c = false)
    (hnever : ∀ u, Event.user_online c u ∉ evs) :
    (step (run st evs) (.disconnect c)).out = [] ∧
    (step (run st evs) (.disconnect c)).threw = false ∧
    (step (run st evs) (.disconnect c)).st.connectedUsers
      = (run st evs).connectedUsers := by
  have hno := noUser_run evs st c (noUser_of_closed st c hclosed) hnever
  simp only [step]
  cases hf : (run st evs).sockets.find? (fun s => decide (s.id = c)) with
  | none => simp
  | some sock =>
    have hmem := List.mem_of_find?_eq_some hf
    have hid : sock.id = c := by simpa using List.find?_some hf
    have hu := hno sock hmem hid
    simp [disconnect, hu, truthy]

/-- Witness of C5: socket `c1` connects, joins a room, sends a message and a
typing event, next to a registered socket `c2`. -/
theorem anonymous_disconnect_silent_witness :
    (step (run State.init [.connection "c2", .user_online "c2" (str "u2"),
      .connection "c1", .join_chat "c1" (str "m1"),
      .send_message "c1" payloadMatchId 7, .typing_start "c1" payloadMatchId])
      (.disconnect "c1")).out = [] ∧
    (step (run State.init [.connection "c2", .user_online "c2" (str "u2"),
      .connection "c1", .join_chat "c1" (str "m1"),
      .send_message "c1" payloadMatchId 7, .typing_start "c1" payloadMatchId])
      (.disconnect "c1")).threw = false ∧
    (step (run State.init [.connection "c2", .user_online "c2" (str "u2"),
      .connection "c1", .join_chat "c1" (str "m1"),
      .send_message "c1" payloadMatchId 7, .typing_start "c1" payloadMatchId])
      (.disconnect "c1")).st.connectedUsers
      = (run State.init [.connection "c2", .user_online "c2" (str "u2"),
      .connection "c1", .join_chat "c1" (str "m1"),
      .send_message "c1" payloadMatchId 7, .typing_start "c1" payloadMatchId]).connectedUsers :=
  anonymous_disconnect_silent State.init [.connection "c2", .user_online "c2" (str "u2"),
      .connection "c1", .join_chat "c1" (str "m1"),
      .send_message "c1" payloadMatchId 7, .typing_start "c1" payloadMatchId] "c1"
    (by decide) (by intro u; simp)

/-- C6, as stated, fails: `send_message` with the payload `null` throws, as
does `message_read` with no payload; `send_message` with an object that lacks
`message` throws too, after `B` has received a `receive_message` made of the
sender and the timestamp alone. -/
theorem malformed_payload_throws :
    (send_message roomM1 "A" null 7).threw = true ∧
    (message_read roomM1 "A" undefined).threw = true ∧
    (send_message roomM1 "A" (obj 1 [("matchId", str "m1"), ("senderId", str "A")]) 7).threw
      = true ∧
    received (send_message roomM1 "A"
      (obj 1 [("matchId", str "m1"), ("senderId", str "A")]) 7).out "B"
      = [("receive_message", [("senderId", .val (str "A")), ("timestamp", .date 7)])] := by
  decide

/-- C6, amended: whatever the payload, the four handlers leave
`connectedUsers` and the sockets with their rooms unchanged; and for a payload
that is neither `null` nor `undefined`, `message_read`, `typing_start` and
`typing_stop` do not throw, nor does `send_message` when the `message` of the
payload is neither `null` nor `undefined`. -/
theorem malformed_payload_keeps_state (st : State) (s : SocketId) (data : JSVal)
    (now : Nat) :
    ((send_message st s data now).st = st ∧ (message_read st s data).st = st ∧
      (typing_start st s data).st = st ∧ (typing_stop st s data).st = st) ∧
    (isNullish data = false →
      (message_read st s data).threw = false ∧
      (typing_start st s data).threw = false ∧
      (typing_stop st s data).threw = false ∧
      (isNullish (getProp data "message") = false →
        (send_message st s data now).threw = false)) := by
  refine ⟨⟨send_message_st st s data now, message_read_st st s data,
    typing_st true st s data, typing_st false st s data⟩, ?_⟩
  intro hdata
  refine ⟨?_, ?_, ?_, ?_⟩
  · simp [message_read, hdata]
  · simp [typing_start, typing, hdata]
  · simp [typing_stop, typing, hdata]
  · intro hmsg
    simp [send_message, hdata, hmsg]

/-- Witness of C6 amended: a number as payload, and an object whose message
is a string. -/
theorem malformed_payload_keeps_state_witness :
    (message_read roomM1 "A" (num 5)).st = roomM1 ∧
    (message_read roomM1 "A" (num 5)).threw = false ∧
    (typing_start roomM1 "A" (num 5)).threw = false ∧
    (typing_stop roomM1 "A" (num 5)).threw = false ∧
    (send_message roomM1 "A" (obj 1 [("message", str "hi")]) 7).st = roomM1 ∧
    (send_message roomM1 "A" (obj 1 [("message", str "hi")]) 7).threw = false :=
  ⟨(malformed_payload_keeps_state roomM1 "A" (num 5) 7).1.2.1,
   ((malformed_payload_keeps_state roomM1 "A" (num 5) 7).2 (by decide)).1,
   ((malformed_payload_keeps_state roomM1 "A" (num 5) 7).2 (by decide)).2.1,
   ((malformed_payload_keeps_state roomM1 "A" (num 5) 7).2 (by decide)).2.2.1,
   (malformed_payload_keeps_state roomM1 "A" (obj 1 [("message", str "hi")]) 7).1.1,
   ((malformed_payload_keeps_state roomM1 "A" (obj 1 [("message", str "hi")]) 7).2
      (by decide)).2.2.2 (by decide)⟩

/-- C7, as stated, fails. When `"U1"` is already registered on another socket
`c0`, the socket `c1` that announces `"U1"` and disconnects leaves a map
without the entry that was there before it opened. And for the identifier
`""`, which is falsy, the disconnect emits nothing and the entry stays. -/
theorem register_then_disconnect_changes_registry :
    (run State.init [.connection "c0", .user_online "c0" (str "U1")]).connectedUsers
      = [(str "U1", "c0")] ∧
    (run (run State.init [.connection "c0", .user_online "c0" (str "U1")])
      [.connection "c1", .user_online "c1" (str "U1"), .disconnect "c1"]).connectedUsers
      = [] ∧
    (emitted State.init
      [.connection "c1", .user_online "c1" (str ""), .disconnect "c1"]).length = 1 ∧
    (run State.init
      [.connection "c1", .user_online "c1" (str ""), .disconnect "c1"]).connectedUsers
      = [(str "", "c1")] := by
  decide

/-- C7, amended: for a truthy user identifier `u`, a socket `c` that opens,
handles `user_online(u)` and disconnects causes exactly two emits, each to
all the other open sockets: `user_status_changed {userId: u, status: "online"}`
and then `user_status_changed {userId: u, status: "offline"}`. Afterwards the
sockets and their rooms are as before, and `connectedUsers` is the map of
before without an entry for `u`: the whole state is as before when `u` had no
entry. -/
theorem register_then_disconnect (st : State) (c : SocketId) (u : JSVal)
    (hclosed : st.isOpen c = false) (hu : truthy u = true) :
    emitted st [.connection c, .user_online c u, .disconnect c]
      = [⟨st.sockets.map Socket.id, "user_status_changed",
            [("userId", .val u), ("status", .val (str "online"))]⟩,
         ⟨st.sockets.map Socket.id, "user_status_changed",
            [("userId", .val u), ("status", .val (str "offline"))]⟩] ∧
    (run st [.connection c, .user_online c u, .disconnect c]).sockets = st.sockets ∧
    (run st [.connection c, .user_online c u, .disconnect c]).connectedUsers
      = mapDelete st.connectedUsers u ∧
    mapGet (run st [.connection c, .user_online c u, .disconnect c]).connectedUsers u
      = none ∧
    (mapGet st.connectedUsers u = none →
      run st [.connection c, .user_online c u, .disconnect c] = st) := by
  have hne := ne_of_closed st c hclosed
  have hopen1 : State.isOpen
      { st with sockets := st.sockets ++ [⟨c, undefined, [str c]⟩] } c = true := by
    simp [State.isOpen]
  have hfilter := filter_ne_of_closed st.sockets c hne
  have hmap := map_update_of_closed st.sockets c (fun s => { s with userId := u }) hne
  have hfind := find_of_closed st.sockets c ⟨c, u, [str c]⟩ hne rfl
  have hstep1 : step st (.connection c)
      = ⟨{ st with sockets := st.sockets ++ [⟨c, undefined, [str c]⟩] }, [], false⟩ := by
    simp [step, hclosed]
  have hstep2 : step { st with sockets := st.sockets ++ [⟨c, undefined, [str c]⟩] }
      (.user_online c u)
      = ⟨⟨mapSet st.connectedUsers u c, st.sockets ++ [⟨c, u, [str c]⟩]⟩,
          [⟨st.sockets.map Socket.id, "user_status_changed",
            [("userId", .val u), ("status", .val (str "online"))]⟩], false⟩ := by
    simp only [step, hopen1, if_true, user_online, broadcast, List.map_append,
      List.filter_append, hfilter, hmap]
    simp
  have hstep3 : step ⟨mapSet st.connectedUsers u c, st.sockets ++ [⟨c, u, [str c]⟩]⟩
      (.disconnect c)
      = ⟨⟨mapDelete st.connectedUsers u, st.sockets⟩,
          [⟨st.sockets.map Socket.id, "user_status_changed",
            [("userId", .val u), ("status", .val (str "offline"))]⟩], false⟩ := by
    simp only [step, hfind, disconnect, hu, if_true, broadcast, List.filter_append,
      hfilter, mapDelete_mapSet]
    simp [hfilter]
  have hrun : run st [.connection c, .user_online c u, .disconnect c]
      = ⟨mapDelete st.connectedUsers u, st.sockets⟩ := by
    simp only [run, List.foldl, hstep1, hstep2, hstep3]
  have hemit : emitted st [.connection c, .user_online c u, .disconnect c]
      = [⟨st.sockets.map Socket.id, "user_status_changed",
            [("userId", .val u), ("status", .val (str "online"))]⟩,
         ⟨st.sockets.map Socket.id, "user_status_changed",
            [("userId", .val u), ("status", .val (str "offline"))]⟩] := by
    simp only [emitted, hstep1, hstep2, hstep3]
    simp
  rw [hrun]
  refine ⟨hemit, rfl, rfl, mapGet_mapDelete_self _ _, ?_⟩
  intro habsent
  rw [mapDelete_absent _ _ habsent]

/-- Witness of C7 amended: user `"U1"` on a fresh socket `c1`, next to an
open socket `c0` registered for `"U0"`. -/
theorem register_then_disconnect_witness :
    emitted (run State.init [.connection "c0", .user_online "c0" (str "U0")])
      [.connection "c1", .user_online "c1" (str "U1"), .disconnect "c1"]
      = [⟨["c0"], "user_status_changed",
            [("userId", .val (str "U1")), ("status", .val (str "online"))]⟩,
         ⟨["c0"], "user_status_changed",
            [("userId", .val (str "U1")), ("status", .val (str "offline"))]⟩] ∧
    run (run State.init [.connection "c0", .user_online "c0" (str "U0")])
      [.connection "c1", .user_online "c1" (str "U1"), .disconnect "c1"]
      = run State.init [.connection "c0", .user_online "c0" (str "U0")] :=
  ⟨(register_then_disconnect (run State.init [.connection "c0", .user_online "c0" (str "U0")])
      "c1" (str "U1") (by decide) (by decide)).1,
   (register_then_disconnect (run State.init [.connection "c0", .user_online "c0" (str "U0")])
      "c1" (str "U1") (by decide) (by decide)).2.2.2.2 (by decide)⟩

end Found
